import Mathlib

/-!
Verification of the probe-acquisition layer of the ISP Health Monitor
(`custom_components/isp_health`).  Each Python sensor is shallowly embedded:
the external I/O outcomes (ping replies, subprocess results, HTTP payloads)
are inputs to the Lean functions, and the pure computation performed by the
Python code on those outcomes is translated directly.  Python floats are
modelled as exact rationals (`ℚ`); the single square root taken by the
jitter sensor is modelled with `Real.sqrt`.  Python status strings
("online", "offline", "error", "disabled") are kept as strings.
-/

namespace ISPHealth

/-! ### Python `round(x, 2)`

Python's `round` uses banker's rounding (round half to even).  `round2`
rounds a rational to 2 decimal places the way `round(x, 2)` does on the
exact value. -/

def roundHalfEven (x : ℚ) : ℤ :=
  let f := ⌊x⌋
  let r := x - f
  if r < 1/2 then f
  else if 1/2 < r then f + 1
  else if Even f then f else f + 1

def round2 (x : ℚ) : ℚ :=
  (roundHalfEven (x * 100) : ℚ) / 100

/-! ### `LatencySensor.get_data` (sensors.py)

The sensor issues `count` pings; each `_ping_host` call yields either a
round-trip time (a float, here `ℚ`) or `None`.  The list of per-attempt
outcomes is the input.  Python's `min`/`max` over a nonempty list are the
left folds below (the `[]` branch is never reached by `get_data`). -/

def listMin : List ℚ → ℚ
  | [] => 0
  | x :: xs => xs.foldl min x

def listMax : List ℚ → ℚ
  | [] => 0
  | x :: xs => xs.foldl max x

structure LatencyResult where
  average : ℚ
  min : ℚ
  max : ℚ
  status : String
  error : Option String
deriving DecidableEq, Repr

def LatencySensor.get_data (samples : List (Option ℚ)) : LatencyResult :=
  let latencies := samples.filterMap id
  if latencies = [] then
    { average := 0, min := 0, max := 0,
      status := "offline", error := some "All ping attempts failed" }
  else
    { average := round2 (latencies.sum / (latencies.length : ℚ)),
      min := round2 (listMin latencies),
      max := round2 (listMax latencies),
      status := "online", error := none }

/-! ### `PacketLossSensor.get_data` (sensors.py)

`successful_pings` counts the non-`None` attempts.  With `count = 0` the
Python division raises `ZeroDivisionError`, which the surrounding
`except` turns into `{"average": 100, "status": "offline", "error":
"division by zero"}`; that branch is modelled explicitly. -/

structure PacketLossResult where
  average : ℚ
  status : String
  error : Option String
deriving DecidableEq, Repr

def PacketLossSensor.get_data (samples : List (Option ℚ)) : PacketLossResult :=
  if samples.length = 0 then
    { average := 100, status := "offline", error := some "division by zero" }
  else
    let successful_pings := samples.countP (fun o => o.isSome)
    let packet_loss := ((samples.length : ℚ) - successful_pings) / samples.length * 100
    { average := round2 packet_loss,
      status := if packet_loss < 50 then "online" else "offline",
      error := none }

/-! ### `JitterSensor.get_data` (sensors.py)

The jitter is `variance ** 0.5` in Python, i.e. the real square root of
the (population) variance; `Real.sqrt` forces this one embedding into `ℝ`
and hence `noncomputable` (everything else stays rational). -/

noncomputable def roundHalfEvenR (x : ℝ) : ℤ :=
  let f := ⌊x⌋
  let r := x - f
  if r < 1/2 then f
  else if 1/2 < r then f + 1
  else if Even f then f else f + 1

noncomputable def round2R (x : ℝ) : ℝ :=
  (roundHalfEvenR (x * 100) : ℝ) / 100

/-- Mean of the successful samples (used by the theorems about the jitter
statistic; the same formula appears inline in `JitterSensor.get_data`,
mirroring the Python source). -/
def popMean (xs : List ℚ) : ℚ := xs.sum / (xs.length : ℚ)

/-- Population variance (mean of squared deviations, no Bessel
correction), as computed by `JitterSensor.get_data`. -/
def popVariance (xs : List ℚ) : ℚ :=
  (xs.map (fun x => (x - popMean xs) ^ 2)).sum / (xs.length : ℚ)

structure JitterResult where
  average : ℝ
  status : String
  error : Option String

noncomputable def JitterSensor.get_data (samples : List (Option ℚ)) : JitterResult :=
  let latencies := samples.filterMap id
  if latencies.length < 2 then
    { average := 0, status := "offline",
      error := some "Insufficient data for jitter calculation" }
  else
    let mean_latency := latencies.sum / (latencies.length : ℚ)
    let variance := (latencies.map (fun x => (x - mean_latency) ^ 2)).sum / (latencies.length : ℚ)
    let jitter := Real.sqrt ((variance : ℚ) : ℝ)
    { average := round2R jitter, status := "online", error := none }

/-! ### `DNSConfigSensor` (sensors.py)

`_is_container_dns` tests whether a candidate string starts with one of a
fixed list of prefixes (Python `str.startswith`, modelled as a character
prefix test).  `_get_system_dns_servers` runs an ordered list of detection
methods; each external method either raises (modelled `none`) or returns a
candidate list (modelled `some candidates`). -/

def containerNetworks : List String :=
  ["127.0.0.1", "::1",
   "172.",
   "192.168.",
   "10.",
   "169.254."]

def DNSConfigSensor.is_container_dns (dns_ip : String) : Bool :=
  containerNetworks.any (fun network => network.data.isPrefixOf dns_ip.data)

/-- One detection method of the chain: its `__name__` together with the
outcome of running it (`none` = the method raised, `some l` = it returned
the candidate list `l`). -/
abbrev DNSMethod : Type := String × Option (List String)

/-- The filtered candidate set a method contributes: empty when the method
raised, returned no candidates, or every candidate was excluded. -/
def filteredOf (m : DNSMethod) : List String :=
  match m.2 with
  | none => []
  | some detected => detected.filter (fun d => !(DNSConfigSensor.is_container_dns d))

/-- The `for method in methods` loop of `_get_system_dns_servers`:
first method whose nonempty result survives the filter wins (`break`);
a raising method is skipped by the per-method `except`. -/
def DNSConfigSensor.chainLoop : List DNSMethod → List String × String
  | [] => ([], "unknown")
  | (_name, none) :: rest => DNSConfigSensor.chainLoop rest
  | (name, some detected) :: rest =>
    if detected = [] then DNSConfigSensor.chainLoop rest
    else
      let filtered_dns := detected.filter (fun d => !(DNSConfigSensor.is_container_dns d))
      if filtered_dns = [] then DNSConfigSensor.chainLoop rest
      else (filtered_dns, name)

/-- `_get_system_dns_servers`: run the chain, then apply the
`public_fallback` default when no method produced anything. -/
def DNSConfigSensor.get_system_dns_servers (methods : List DNSMethod) :
    List String × String :=
  let r := DNSConfigSensor.chainLoop methods
  if r.1 = [] then (["8.8.8.8", "1.1.1.1"], "public_fallback")
  else r

/-- `_get_common_dns_servers`, the hard-coded last method of the chain. -/
def DNSConfigSensor.get_common_dns_servers : List String :=
  ["8.8.8.8", "1.1.1.1", "9.9.9.9"]

/-! ### `RouteStabilitySensor` (sensors.py)

State: `route_history : List (List String)` with `max_history = 10`.
`_get_route` (traceroute) either fails (`none`) or returns a hop list;
note the Python guard `if current_route:` is list truthiness, so an empty
hop list takes the failure branch. -/

/-- The `current_route` field of the returned dict: a hop list on success,
the string `"Unknown"` on failure. -/
inductive CurrentRoute
  | hops (r : List String)
  | unknown
deriving DecidableEq, Repr

structure RouteResult where
  overall_stability : ℚ
  route_changes : ℕ
  current_route : CurrentRoute
  status : String
  error : Option String
deriving DecidableEq, Repr

/-- `_calculate_stability`: compare the current (last) snapshot with every
earlier one; `100.0` with fewer than two snapshots. -/
def RouteStabilitySensor.calculate_stability (route_history : List (List String)) : ℚ :=
  if route_history.length < 2 then 100
  else
    let current_route := route_history.getLastD []
    let previous := route_history.dropLast
    let match_count := (previous.filter (fun r => r = current_route)).length
    let total_comparisons := previous.length
    if total_comparisons = 0 then 100
    else (match_count : ℚ) / (total_comparisons : ℚ) * 100

/-- `RouteStabilitySensor.get_data`: takes the current history and the
traceroute outcome, returns the result dict together with the updated
history (`self.route_history` after the call). -/
def RouteStabilitySensor.get_data (route_history : List (List String))
    (trace : Option (List String)) : RouteResult × List (List String) :=
  match trace with
  | some current_route =>
    if current_route = [] then
      ({ overall_stability := 0, route_changes := 0, current_route := .unknown,
         status := "offline", error := some "Failed to get route" }, route_history)
    else
      let h1 := route_history ++ [current_route]
      let h2 := if h1.length > 10 then h1.drop 1 else h1
      let stability := RouteStabilitySensor.calculate_stability h2
      ({ overall_stability := round2 stability,
         route_changes := h2.length - 1,
         current_route := .hops current_route,
         status := "online", error := none }, h2)
  | none =>
    ({ overall_stability := 0, route_changes := 0, current_route := .unknown,
       status := "offline", error := some "Failed to get route" }, route_history)

/-! ### `IPInfoManager.get_ip_info` (ip_info.py) and its caller
(`ISPHealthMonitor.get_ip_information`, isp_health.py)

The provider dict is modelled by its key list `names` plus an outcome
function: calling provider `s` either returns data (`Except.ok`) or raises
with message `e` (`Except.error e`).  `str(None)` is `"None"`. -/

def fallback_order : List String := ["ipapi", "ipinfo", "ipgeolocation"]

def pyStr : Option String → String
  | none => "None"
  | some e => e

/-- Building `sources_to_try`: the preferred source first (Python
truthiness: `None` and `""` are skipped), then the fixed fallback order,
skipping unavailable providers and duplicates. -/
def sourcesToTry (preferred : Option String) (names : List String) : List String :=
  let s0 : List String :=
    match preferred with
    | some p => if p ≠ "" ∧ p ∈ names then [p] else []
    | none => []
  fallback_order.foldl (fun acc s => if s ∈ names ∧ s ∉ acc then acc ++ [s] else acc) s0

/-- The `for source in sources_to_try` loop with its `last_error`
accumulator and the final aggregate `raise`. -/
def trySources {α : Type} (outcome : String → Except String α) :
    List String → Option String → Except String α
  | [], last_error =>
    .error ("All IP info sources failed. Last error: " ++ pyStr last_error)
  | s :: rest, _ =>
    match outcome s with
    | .ok data => .ok data
    | .error e => trySources outcome rest (some e)

def IPInfoManager.get_ip_info {α : Type} (names : List String)
    (outcome : String → Except String α) (preferred : Option String) :
    Except String α :=
  trySources outcome (sourcesToTry preferred names) none

/-- `ISPHealthMonitor.get_ip_information`: success returns the provider
data unchanged, an exception becomes the probe's own error-status dict
(the `asyncio.TimeoutError` branch, a real-time effect, is not modelled). -/
inductive IPLookup (α : Type)
  | data (d : α)
  | errorResult (err : String)
deriving DecidableEq

def ISPHealthMonitor.get_ip_information {α : Type} (names : List String)
    (outcome : String → Except String α) (preferred : Option String) :
    IPLookup α :=
  match IPInfoManager.get_ip_info names outcome preferred with
  | .ok result => .data result
  | .error e => .errorResult e

/-! ### `ISPHealthMonitor.get_all_sensor_data` (isp_health.py)

Each enabled sensor's `get_data()` either returns a dict or raises; only
the claim-relevant `status`/`error` shape of the returned dicts is kept.
The report is the Python dict in insertion order: the always-present
`ip_info` entry first, then one entry per enabled sensor. -/

structure ReportEntry where
  status : String
  error : Option String
deriving DecidableEq, Repr

def ISPHealthMonitor.get_all_sensor_data (ip_info : ReportEntry)
    (sensors : List (String × Except String ReportEntry)) :
    List (String × ReportEntry) :=
  ("ip_info", ip_info) ::
    sensors.map (fun p =>
      match p.2 with
      | .ok data => (p.1, data)
      | .error e => (p.1, { status := "error", error := some e }))

/-! ### `ISPHealthDataUpdateCoordinator` (coordinator.py)

`_async_update_data` wraps the whole cycle in `try/except` and returns
`_get_mock_data()` on any exception.  Of the mock dict, the metric names
and their `status` fields are modelled (the remaining fixture payload
fields, all constants, are elided); `last_update`/`update_interval` are
wall-clock/config values and are not modelled. -/

structure CoordData where
  sensors : List (String × String)
deriving DecidableEq, Repr

def ISPHealthDataUpdateCoordinator.get_mock_data : CoordData :=
  { sensors :=
      [("ip_info", "online"),
       ("dns_config", "online"),
       ("latency", "online"),
       ("packet_loss", "online"),
       ("jitter", "online"),
       ("throughput", "online"),
       ("dns_reliability", "online"),
       ("route_stability", "online")] }

def ISPHealthDataUpdateCoordinator.async_update_data
    (attempt : Except String (List (String × String))) : CoordData :=
  match attempt with
  | .ok sensor_data => { sensors := sensor_data }
  | .error _ => ISPHealthDataUpdateCoordinator.get_mock_data

/-! ### Address normalizers (ip_info.py)

Raw provider payloads and the normalized record are Python dicts; the keys
ever read or written are modelled as an enumeration (each constructor is
the exact string key of the source), and a dict is a function from keys to
`Option JVal` (`none` = key absent, `JVal.null` = key present with value
`None`).  `dict.get(k)` cannot distinguish an absent key from `None`, which
`jget` reflects. -/

inductive JVal
  | null
  | str (s : String)
  | num (q : ℚ)
deriving DecidableEq, Repr

inductive RawKey
  | query | reverse | city | regionName | country | lat | lon | isp | zip
  | timezone | ip | hostname | region | loc | org | postal
  | latitude | longitude | organization | postal_code | source | timestamp
deriving DecidableEq, Repr

def Raw : Type := RawKey → Option JVal

/-- Collapse a present-but-`None` value to `none`. -/
def denull : Option JVal → Option JVal
  | some JVal.null => none
  | v => v

/-- `raw_data.get(k)`: `None` whether the key is absent or mapped to
`None`. -/
def jget (raw : Raw) (k : RawKey) : Option JVal :=
  denull (raw k)

structure AddressInfo where
  ip : Option JVal
  hostname : Option JVal
  city : Option JVal
  region : Option JVal
  country : Option JVal
  latitude : Option JVal
  longitude : Option JVal
  organization : Option JVal
  postal_code : Option JVal
  timezone : Option JVal
  source : String
  timestamp : String
deriving DecidableEq, Repr

/-- The normalized record viewed as the Python dict it is: every canonical
key is present (possibly with value `None`), no other key is. -/
def AddressInfo.toRaw (a : AddressInfo) : Raw := fun k =>
  match k with
  | .ip => some (a.ip.getD JVal.null)
  | .hostname => some (a.hostname.getD JVal.null)
  | .city => some (a.city.getD JVal.null)
  | .region => some (a.region.getD JVal.null)
  | .country => some (a.country.getD JVal.null)
  | .latitude => some (a.latitude.getD JVal.null)
  | .longitude => some (a.longitude.getD JVal.null)
  | .organization => some (a.organization.getD JVal.null)
  | .postal_code => some (a.postal_code.getD JVal.null)
  | .timezone => some (a.timezone.getD JVal.null)
  | .source => some (JVal.str a.source)
  | .timestamp => some (JVal.str a.timestamp)
  | _ => none

/-- `IPAPIProvider.normalize_data` (raw keys of ip-api.com); `now` stands
for `datetime.now().isoformat()`. -/
def IPAPIProvider.normalize_data (now : String) (raw : Raw) : AddressInfo :=
  { ip := jget raw .query,
    hostname := jget raw .reverse,
    city := jget raw .city,
    region := jget raw .regionName,
    country := jget raw .country,
    latitude := jget raw .lat,
    longitude := jget raw .lon,
    organization := jget raw .isp,
    postal_code := jget raw .zip,
    timezone := jget raw .timezone,
    source := "ip-api.com",
    timestamp := now }

/-- `"a,b".split(",")` on characters; `splitOnChar c []` is `[[]]`, like
Python `"".split(",") == [""]`. -/
def splitOnChar (c : Char) : List Char → List (List Char)
  | [] => [[]]
  | x :: xs =>
    let r := splitOnChar c xs
    if x = c then [] :: r
    else
      match r with
      | [] => [[x]]
      | h :: t => (x :: h) :: t

def digitsVal (cs : List Char) : ℕ :=
  cs.foldl (fun acc c => acc * 10 + (c.toNat - 48)) 0

/-- Python `float(s)` restricted to the plain decimal forms
(`[-]digits[.digits]`) that `ipinfo.io` location strings use; `none` where
`float` would raise `ValueError`. -/
def parseFloatChars (cs : List Char) : Option ℚ :=
  let signed : ℚ × List Char :=
    match cs with
    | '-' :: rest => (-1, rest)
    | _ => (1, cs)
  match splitOnChar '.' signed.2 with
  | [as] =>
    if as ≠ [] ∧ as.all Char.isDigit then some (signed.1 * digitsVal as) else none
  | [as, bs] =>
    if (as ≠ [] ∨ bs ≠ []) ∧ as.all Char.isDigit ∧ bs.all Char.isDigit then
      some (signed.1 * ((digitsVal as : ℚ) + (digitsVal bs : ℚ) / (10 ^ bs.length)))
    else none
  | _ => none

/-- `loc.split(",")` followed by the `(float(loc[0]), float(loc[1])) if
len(loc) == 2 else (None, None)` line: two parts are both parsed (raising
`ValueError` — `Except.error` — on a malformed part), any other shape
yields `(None, None)`. -/
def IPInfoIOProvider.loc_split (s : String) : Except String (Option ℚ × Option ℚ) :=
  match splitOnChar ',' s.data with
  | [l1, l2] =>
    match parseFloatChars l1, parseFloatChars l2 with
    | some la, some lo => .ok (some la, some lo)
    | _, _ => .error "ValueError"
  | _ => .ok (none, none)

/-- `raw_data.get("loc", "").split(",")`: an absent key defaults to `""`;
a present non-string value (including `None`) makes `.split` raise
`AttributeError`. -/
def IPInfoIOProvider.parse_loc (raw : Raw) : Except String (Option ℚ × Option ℚ) :=
  match raw RawKey.loc with
  | none => IPInfoIOProvider.loc_split ""
  | some (JVal.str s) => IPInfoIOProvider.loc_split s
  | some _ => .error "AttributeError"

/-- `IPInfoIOProvider.normalize_data` (raw keys of ipinfo.io). -/
def IPInfoIOProvider.normalize_data (now : String) (raw : Raw) :
    Except String AddressInfo :=
  match IPInfoIOProvider.parse_loc raw with
  | .error e => .error e
  | .ok latlon =>
    .ok
      { ip := jget raw .ip,
        hostname := jget raw .hostname,
        city := jget raw .city,
        region := jget raw .region,
        country := jget raw .country,
        latitude := latlon.1.map JVal.num,
        longitude := latlon.2.map JVal.num,
        organization := jget raw .org,
        postal_code := jget raw .postal,
        timezone := jget raw .timezone,
        source := "ipinfo.io",
        timestamp := now }

/-! ## Theorems -/

/-! ### The DNS detector chain (claims C2, C7, C10) -/

lemma chainLoop_cons_skip (m : DNSMethod) (rest : List DNSMethod)
    (h : filteredOf m = []) :
    DNSConfigSensor.chainLoop (m :: rest) = DNSConfigSensor.chainLoop rest := by
  obtain ⟨nm, o⟩ := m
  cases o with
  | none => rfl
  | some detected =>
    simp only [filteredOf] at h
    simp only [DNSConfigSensor.chainLoop, h]
    split
    · rfl
    · simp

lemma chainLoop_cons_accept (m : DNSMethod) (rest : List DNSMethod)
    (h : filteredOf m ≠ []) :
    DNSConfigSensor.chainLoop (m :: rest) = (filteredOf m, m.1) := by
  obtain ⟨nm, o⟩ := m
  cases o with
  | none => exact absurd rfl h
  | some detected =>
    simp only [filteredOf] at h ⊢
    have hd : detected ≠ [] := by
      intro he
      exact h (by simp [he])
    simp only [DNSConfigSensor.chainLoop, if_neg hd, if_neg h]

lemma chainLoop_append_skip (pre : List DNSMethod)
    (h : ∀ m ∈ pre, filteredOf m = []) (ms : List DNSMethod) :
    DNSConfigSensor.chainLoop (pre ++ ms) = DNSConfigSensor.chainLoop ms := by
  induction pre with
  | nil => rfl
  | cons m t ih =>
    rw [List.cons_append, chainLoop_cons_skip m _ (h m (by simp))]
    exact ih (fun x hx => h x (by simp [hx]))

/-- C2: the DNS detector chain executes its methods strictly in the
declared order; the exclusion predicate is applied to each method's raw
candidates, the first method whose filtered candidate set is non-empty is
accepted with its name recorded as the source, methods after the accepted
one do not influence the outcome (short-circuit), and a method that raises
is simply skipped, never failing the chain. -/
theorem dns_chain_first_success_wins (pre post : List DNSMethod) (nm : String)
    (cand : List String)
    (h1 : ∀ m ∈ pre, filteredOf m = [])
    (h2 : cand.filter (fun d => !(DNSConfigSensor.is_container_dns d)) ≠ []) :
    DNSConfigSensor.get_system_dns_servers (pre ++ (nm, some cand) :: post)
        = (cand.filter (fun d => !(DNSConfigSensor.is_container_dns d)), nm)
    ∧ (∀ post2 : List DNSMethod,
        DNSConfigSensor.get_system_dns_servers (pre ++ (nm, some cand) :: post2)
          = DNSConfigSensor.get_system_dns_servers (pre ++ (nm, some cand) :: post))
    ∧ (∀ (nm2 : String) (ms : List DNSMethod),
        DNSConfigSensor.get_system_dns_servers ((nm2, (none : Option (List String))) :: ms)
          = DNSConfigSensor.get_system_dns_servers ms) := by
  have hacc : filteredOf (nm, some cand) ≠ [] := h2
  have key : ∀ post3 : List DNSMethod,
      DNSConfigSensor.get_system_dns_servers (pre ++ (nm, some cand) :: post3)
        = (cand.filter (fun d => !(DNSConfigSensor.is_container_dns d)), nm) := by
    intro post3
    have hloop : DNSConfigSensor.chainLoop (pre ++ (nm, some cand) :: post3)
        = (cand.filter (fun d => !(DNSConfigSensor.is_container_dns d)), nm) := by
      rw [chainLoop_append_skip pre h1, chainLoop_cons_accept _ _ hacc]
      rfl
    simp only [DNSConfigSensor.get_system_dns_servers, hloop, if_neg h2]
  refine ⟨key post, fun post2 => (key post2).trans (key post).symm, fun nm2 ms => ?_⟩
  simp only [DNSConfigSensor.get_system_dns_servers,
    chainLoop_cons_skip (nm2, none) ms rfl]

/-- Witness for C2: method `m1` yields only an excluded (private)
candidate, `m2` yields a public candidate and is accepted, `m3` is not
consulted. -/
theorem dns_chain_first_success_wins_witness :
    (∀ m ∈ [(("m1" : String), some ["10.0.0.1"])], filteredOf m = [])
    ∧ ((["8.8.4.4"] : List String).filter
        (fun d => !(DNSConfigSensor.is_container_dns d)) ≠ [])
    ∧ DNSConfigSensor.get_system_dns_servers
        [("m1", some ["10.0.0.1"]), ("m2", some ["8.8.4.4"]), ("m3", some ["9.9.9.9"])]
        = (["8.8.4.4"], "m2") := by
  refine ⟨by decide, by decide, ?_⟩
  have h := dns_chain_first_success_wins [("m1", some ["10.0.0.1"])]
    [("m3", some ["9.9.9.9"])] "m2" ["8.8.4.4"] (by decide) (by decide)
  simpa using h.1

/-- C7: when every detection method yields an empty filtered candidate
set, the chain falls back to the fixed default list and records
`source = "public_fallback"`; and the DNS server list the chain returns is
never empty. -/
theorem dns_chain_public_fallback (methods : List DNSMethod)
    (h : ∀ m ∈ methods, filteredOf m = []) :
    DNSConfigSensor.get_system_dns_servers methods
        = (["8.8.8.8", "1.1.1.1"], "public_fallback")
    ∧ ∀ ms : List DNSMethod, (DNSConfigSensor.get_system_dns_servers ms).1 ≠ [] := by
  constructor
  · have hloop : DNSConfigSensor.chainLoop methods = ([], "unknown") := by
      have := chainLoop_append_skip methods h []
      simpa using this
    simp [DNSConfigSensor.get_system_dns_servers, hloop]
  · intro ms
    simp only [DNSConfigSensor.get_system_dns_servers]
    split
    · simp
    · next hne => exact hne

/-- Witness for C7: one raising method and one method whose candidates
are all excluded exhaust the chain; the fallback is returned and any
chain's result is non-empty. -/
theorem dns_chain_public_fallback_witness :
    (∀ m ∈ [(("m1" : String), (none : Option (List String))),
            ("m2", some ["10.1.1.1"])], filteredOf m = [])
    ∧ DNSConfigSensor.get_system_dns_servers
        [("m1", none), ("m2", some ["10.1.1.1"])]
        = (["8.8.8.8", "1.1.1.1"], "public_fallback")
    ∧ (DNSConfigSensor.get_system_dns_servers []).1 ≠ [] := by
  refine ⟨by decide, ?_, ?_⟩
  · exact (dns_chain_public_fallback _ (by decide)).1
  · exact (dns_chain_public_fallback [] (by decide)).2 []

/-- C10: the exclusion predicate `_is_container_dns` is a pure prefix
test over the fixed prefix list; in particular `"172.217.0.1"` (a public
address) is discarded; and the chain treats every method through the same
filter, uniformly in the method's position and outcome. -/
theorem dns_exclusion_prefix_test :
    containerNetworks = ["127.0.0.1", "::1", "172.", "192.168.", "10.", "169.254."]
    ∧ (∀ s : String, DNSConfigSensor.is_container_dns s = true ↔
        ∃ p ∈ containerNetworks, p.data.isPrefixOf s.data = true)
    ∧ DNSConfigSensor.is_container_dns "172.217.0.1" = true
    ∧ (∀ (nm : String) (o : Option (List String)) (rest : List DNSMethod),
        DNSConfigSensor.chainLoop ((nm, o) :: rest) =
          if filteredOf (nm, o) = [] then DNSConfigSensor.chainLoop rest
          else (filteredOf (nm, o), nm)) := by
  refine ⟨rfl, ?_, by decide, ?_⟩
  · intro s
    simp [DNSConfigSensor.is_container_dns, List.any_eq_true]
  · intro nm o rest
    by_cases h : filteredOf (nm, o) = []
    · rw [if_pos h, chainLoop_cons_skip _ _ h]
    · rw [if_neg h, chainLoop_cons_accept _ _ h]

/-! ### The latency / packet-loss sampler (claim C1) -/

lemma countP_isSome_eq_length_filterMap (samples : List (Option ℚ)) :
    samples.countP (fun o => o.isSome) = (samples.filterMap id).length := by
  induction samples with
  | nil => rfl
  | cons a t ih =>
    cases a <;> simp [List.countP_cons, ih]

lemma round2_hundred : round2 100 = 100 := by
  norm_num [round2, roundHalfEven]

/-- C1 (amended): for a nonempty sample list, the latency probe reports
average/min/max over the successful samples rounded to 2 decimal places
and, when no sample succeeded, status offline with error
`"All ping attempts failed"`; the packet-loss probe reports the loss
percentage `100·(k − successes)/k` rounded to 2 decimal places, with
status offline exactly when the (unrounded) loss is ≥ 50, and loss 100
when all samples fail. -/
theorem sampler_latency_packet_loss_spec (samples : List (Option ℚ))
    (hk : samples ≠ []) :
    (samples.filterMap id = [] →
      LatencySensor.get_data samples
        = { average := 0, min := 0, max := 0, status := "offline",
            error := some "All ping attempts failed" })
    ∧ (samples.filterMap id ≠ [] →
        LatencySensor.get_data samples
          = { average := round2 ((samples.filterMap id).sum
                / ((samples.filterMap id).length : ℚ)),
              min := round2 (listMin (samples.filterMap id)),
              max := round2 (listMax (samples.filterMap id)),
              status := "online", error := none })
    ∧ (PacketLossSensor.get_data samples).average
        = round2 (100 * ((samples.length : ℚ) - ((samples.filterMap id).length : ℚ))
            / (samples.length : ℚ))
    ∧ ((PacketLossSensor.get_data samples).status = "offline" ↔
        50 ≤ 100 * ((samples.length : ℚ) - ((samples.filterMap id).length : ℚ))
            / (samples.length : ℚ))
    ∧ (samples.filterMap id = [] → (PacketLossSensor.get_data samples).average = 100) := by
  have hlen : samples.length ≠ 0 := by
    simpa [List.length_eq_zero] using hk
  have hcount : (samples.countP (fun o => o.isSome) : ℚ)
      = ((samples.filterMap id).length : ℚ) := by
    exact_mod_cast congrArg (Nat.cast (R := ℚ)) (countP_isSome_eq_length_filterMap samples)
  have hform : ((samples.length : ℚ) - ((samples.filterMap id).length : ℚ))
        / (samples.length : ℚ) * 100
      = 100 * ((samples.length : ℚ) - ((samples.filterMap id).length : ℚ))
        / (samples.length : ℚ) := by
    ring
  refine ⟨?_, ?_, ?_, ?_, ?_⟩
  · intro h0
    simp only [LatencySensor.get_data, if_pos h0]
  · intro h0
    simp only [LatencySensor.get_data, if_neg h0]
  · simp only [PacketLossSensor.get_data, if_neg hlen, hcount, hform]
  · simp only [PacketLossSensor.get_data, if_neg hlen, hcount]
    rw [hform]
    by_cases hl : 100 * ((samples.length : ℚ) - ((samples.filterMap id).length : ℚ))
        / (samples.length : ℚ) < 50
    · rw [if_pos hl]
      constructor
      · intro habs
        exact absurd habs (by decide)
      · intro h50
        exact absurd hl (not_lt.mpr h50)
    · rw [if_neg hl]
      exact ⟨fun _ => not_lt.mp hl, fun _ => rfl⟩
  · intro h0
    simp only [PacketLossSensor.get_data, if_neg hlen, hcount, h0, List.length_nil,
      Nat.cast_zero, sub_zero]
    rw [div_self (by exact_mod_cast hlen : (samples.length : ℚ) ≠ 0), one_mul]
    exact round2_hundred

/-- Counterexample to C1 as stated: the latency error string the code
produces is `"All ping attempts failed"`, not `"all attempts failed"`, and
the reported packet loss is the rounded value `66.67`, not the exact
`100·(3−1)/3 = 200/3`. -/
theorem sampler_claim_counterexample :
    (LatencySensor.get_data [none]).status = "offline"
    ∧ (LatencySensor.get_data [none]).error ≠ some "all attempts failed"
    ∧ (PacketLossSensor.get_data [some 1, none, none]).average ≠ 100 * (3 - 1) / 3 := by
  refine ⟨by decide, by decide, ?_⟩
  have hv : (PacketLossSensor.get_data [some 1, none, none]).average = 6667 / 100 := by
    simp only [PacketLossSensor.get_data]
    norm_num [round2, roundHalfEven, List.countP_cons]
  rw [hv]
  norm_num

/-- Witness for C1 at `[some 2, none]`: one of two pings succeeded, so
latency reports 2/2/2 and packet loss reports exactly 50 with status
offline (the ≥ 50 boundary). -/
theorem sampler_latency_packet_loss_spec_witness :
    ([some 2, none] : List (Option ℚ)) ≠ []
    ∧ LatencySensor.get_data [some 2, none]
        = { average := 2, min := 2, max := 2, status := "online", error := none }
    ∧ (PacketLossSensor.get_data [some 2, none]).average = 50
    ∧ (PacketLossSensor.get_data [some 2, none]).status = "offline" := by
  have h := sampler_latency_packet_loss_spec [some 2, none] (by decide)
  have hfm : List.filterMap id ([some 2, none] : List (Option ℚ)) = [2] := rfl
  refine ⟨by decide, ?_, ?_, ?_⟩
  · rw [h.2.1 (by rw [hfm]; decide), hfm]
    simp only [LatencyResult.mk.injEq, List.sum_cons, List.sum_nil, List.length_cons,
      List.length_nil, listMin, listMax, List.foldl_nil]
    norm_num [round2, roundHalfEven]
  · rw [h.2.2.1, hfm]
    norm_num [round2, roundHalfEven]
  · refine (h.2.2.2.1).mpr ?_
    rw [hfm]
    norm_num

/-! ### The jitter sampler (claim C5) -/

/-- C5 (amended): the jitter probe requires at least 2 successful samples,
otherwise it reports status offline with error
`"Insufficient data for jitter calculation"`; with ≥ 2 successes it
reports the population standard deviation (mean of squared deviations, no
Bessel correction) of the successful round-trip times rounded to
2 decimal places; for exactly one successful value `v` jitter is offline
with that error while latency reports average = min = max = `round2 v`. -/
theorem jitter_spec (samples : List (Option ℚ)) :
    ((samples.filterMap id).length < 2 →
      (JitterSensor.get_data samples).status = "offline"
      ∧ (JitterSensor.get_data samples).error
          = some "Insufficient data for jitter calculation"
      ∧ (JitterSensor.get_data samples).average = 0)
    ∧ (2 ≤ (samples.filterMap id).length →
        (JitterSensor.get_data samples).status = "online"
        ∧ (JitterSensor.get_data samples).error = none
        ∧ (JitterSensor.get_data samples).average
            = round2R (Real.sqrt ((popVariance (samples.filterMap id) : ℚ) : ℝ)))
    ∧ (∀ v : ℚ, samples.filterMap id = [v] →
        ((JitterSensor.get_data samples).status = "offline"
          ∧ (JitterSensor.get_data samples).error
              = some "Insufficient data for jitter calculation")
        ∧ LatencySensor.get_data samples
            = { average := round2 v, min := round2 v, max := round2 v,
                status := "online", error := none }) := by
  refine ⟨?_, ?_, ?_⟩
  · intro hlt
    refine ⟨?_, ?_, ?_⟩ <;> simp only [JitterSensor.get_data, if_pos hlt]
  · intro hge
    refine ⟨?_, ?_, ?_⟩ <;>
      simp only [JitterSensor.get_data,
        if_neg (by omega : ¬ (samples.filterMap id).length < 2)]
    simp only [popVariance, popMean]
  · intro v hv
    constructor
    · have hlt : (samples.filterMap id).length < 2 := by
        rw [hv]; simp
      refine ⟨?_, ?_⟩ <;> simp only [JitterSensor.get_data, if_pos hlt]
    · have hne : samples.filterMap id ≠ [] := by
        rw [hv]; simp
      simp only [LatencySensor.get_data, if_neg hne, hv]
      have hsum : (([v] : List ℚ).sum / (([v] : List ℚ).length : ℚ)) = v := by
        simp
      rw [hsum]
      simp [listMin, listMax]

/-- Counterexample to C5 as stated: the code's insufficient-data error
string is `"Insufficient data for jitter calculation"`, not
`"insufficient data"`; with the single successful sample `0.001` latency
reports the rounded `0`, not `0.001`; and with successful samples
`[0, 0, 3]` (population variance 2) the reported jitter is the rounded
value, which is rational, not the irrational standard deviation `√2`. -/
theorem jitter_claim_counterexample :
    (JitterSensor.get_data [some (1/1000)]).status = "offline"
    ∧ (JitterSensor.get_data [some (1/1000)]).error ≠ some "insufficient data"
    ∧ (LatencySensor.get_data [some (1/1000)]).average ≠ 1/1000
    ∧ (JitterSensor.get_data [some 0, some 0, some 3]).average
        ≠ Real.sqrt ((popVariance
            (([some 0, some 0, some 3] : List (Option ℚ)).filterMap id) : ℚ) : ℝ) := by
  have hfm3 : List.filterMap id ([some 0, some 0, some 3] : List (Option ℚ))
      = [0, 0, 3] := rfl
  refine ⟨by decide, by decide, ?_, ?_⟩
  · have hone : (LatencySensor.get_data [some (1/1000)]).average = 0 := by
      have hfm1 : List.filterMap id ([some (1/1000)] : List (Option ℚ)) = [1/1000] := rfl
      simp only [LatencySensor.get_data, hfm1,
        if_neg (by decide : ¬ (([1/1000] : List ℚ) = []))]
      norm_num [round2, roundHalfEven]
    rw [hone]
    norm_num
  · have hpv : popVariance (([some 0, some 0, some 3] : List (Option ℚ)).filterMap id)
        = 2 := by
      rw [hfm3]
      norm_num [popVariance, popMean]
    have havg : (JitterSensor.get_data [some 0, some 0, some 3]).average
        = round2R (Real.sqrt ((2 : ℚ) : ℝ)) := by
      have hlen2 : ¬ (([0, 0, 3] : List ℚ).length < 2) := by decide
      have hvar : (([0, 0, 3] : List ℚ).map
          (fun x => (x - ([0, 0, 3] : List ℚ).sum
            / ((([0, 0, 3] : List ℚ).length : ℕ) : ℚ)) ^ 2)).sum
            / ((([0, 0, 3] : List ℚ).length : ℕ) : ℚ) = 2 := by
        norm_num
      simp only [JitterSensor.get_data, hfm3, if_neg hlen2]
      congr 1
      congr 1
      exact_mod_cast hvar
    rw [havg, hpv]
    have hc : ((2 : ℚ) : ℝ) = 2 := by norm_num
    rw [hc]
    intro heq
    have hrat : round2R (Real.sqrt 2)
        = (((roundHalfEvenR (Real.sqrt 2 * 100) : ℚ) / 100 : ℚ) : ℝ) := by
      simp only [round2R]
      push_cast
      ring
    have h1 : Irrational ((((roundHalfEvenR (Real.sqrt 2 * 100) : ℚ) / 100 : ℚ)) : ℝ) := by
      rw [← hrat, heq]
      exact irrational_sqrt_two
    exact Rat.not_irrational _ h1

/-- Witness for C5: `[some 1, some 3]` has two successes (jitter online,
reporting the rounded standard deviation), `[some 5, none]` has exactly
one success (jitter offline with the insufficient-data error, latency
reporting 5/5/5). -/
theorem jitter_spec_witness :
    2 ≤ ((([some 1, some 3] : List (Option ℚ)).filterMap id).length)
    ∧ (JitterSensor.get_data [some 1, some 3]).status = "online"
    ∧ (JitterSensor.get_data [some 1, some 3]).average
        = round2R (Real.sqrt ((popVariance
            (([some 1, some 3] : List (Option ℚ)).filterMap id) : ℚ) : ℝ))
    ∧ (JitterSensor.get_data [some 5, none]).status = "offline"
    ∧ (JitterSensor.get_data [some 5, none]).error
        = some "Insufficient data for jitter calculation"
    ∧ LatencySensor.get_data [some 5, none]
        = { average := round2 5, min := round2 5, max := round2 5,
            status := "online", error := none } := by
  have h1 := (jitter_spec [some 1, some 3]).2.1 (by decide)
  have h2 := (jitter_spec [some 5, none]).2.2 5 rfl
  exact ⟨by decide, h1.1, h1.2.2, h2.1.1, h2.1.2, h2.2⟩

/-! ### Route stability (claim C3) -/

/-- C3 (amended): the route-stability probe leaves the history unchanged
and reports offline when the trace fails — or when it returns an empty hop
list (Python list truthiness); on a non-empty trace the snapshot is
appended (evicting the oldest entry beyond capacity 10, so a history of
size ≤ 10 stays ≤ 10), and the report carries status online,
`route_changes = historySize − 1` and `overall_stability` equal to the
rounded-to-2-decimals value of 100 when fewer than 2 snapshots are held,
else of `100·matches/(historySize − 1)` where `matches` counts earlier
snapshots sequence-equal to the current one. -/
theorem route_stability_spec (route_history : List (List String))
    (trace : Option (List String)) :
    ((trace = none ∨ trace = some []) →
      RouteStabilitySensor.get_data route_history trace
        = ({ overall_stability := 0, route_changes := 0, current_route := .unknown,
             status := "offline", error := some "Failed to get route" }, route_history))
    ∧ (∀ r : List String, trace = some r → r ≠ [] →
        ∀ h2 : List (List String),
          h2 = (if (route_history ++ [r]).length > 10
                then (route_history ++ [r]).drop 1 else route_history ++ [r]) →
          (RouteStabilitySensor.get_data route_history trace).2 = h2
          ∧ (route_history.length ≤ 10 → h2.length ≤ 10)
          ∧ (RouteStabilitySensor.get_data route_history trace).1.status = "online"
          ∧ (RouteStabilitySensor.get_data route_history trace).1.error = none
          ∧ (RouteStabilitySensor.get_data route_history trace).1.current_route
              = .hops r
          ∧ (RouteStabilitySensor.get_data route_history trace).1.route_changes
              = h2.length - 1
          ∧ (h2.length < 2 →
              (RouteStabilitySensor.get_data route_history trace).1.overall_stability
                = 100)
          ∧ (2 ≤ h2.length →
              (RouteStabilitySensor.get_data route_history trace).1.overall_stability
                = round2 (100 * ((h2.dropLast.filter (fun q => q = r)).length : ℚ)
                    / ((h2.length - 1 : ℕ) : ℚ)))) := by
  constructor
  · rintro (rfl | rfl)
    · rfl
    · rfl
  · rintro r rfl hr h2 hh2
    have hget : RouteStabilitySensor.get_data route_history (some r)
        = ({ overall_stability :=
              round2 (RouteStabilitySensor.calculate_stability h2),
             route_changes := h2.length - 1,
             current_route := .hops r,
             status := "online", error := none }, h2) := by
      simp only [RouteStabilitySensor.get_data, if_neg hr, hh2]
    have hlast : h2.getLastD [] = r := by
      rw [hh2]
      by_cases hc : (route_history ++ [r]).length > 10
      · rw [if_pos hc]
        have hrh : route_history ≠ [] := by
          intro he
          simp [he] at hc
        obtain ⟨a, t, rfl⟩ := List.exists_cons_of_ne_nil hrh
        simp [List.getLastD_concat]
      · rw [if_neg hc]
        exact List.getLastD_concat [] r route_history
    have hlen2 : h2.length = (if (route_history ++ [r]).length > 10
        then route_history.length else route_history.length + 1) := by
      rw [hh2]
      by_cases hc : (route_history ++ [r]).length > 10
      · rw [if_pos hc, if_pos hc]
        simp [List.length_drop]
      · rw [if_neg hc, if_neg hc]
        simp
    refine ⟨by rw [hget], ?_, by rw [hget], by rw [hget], by rw [hget],
      by rw [hget], ?_, ?_⟩
    · intro hle
      rw [hlen2]
      split
      · exact hle
      · next hc =>
        simp only [List.length_append, List.length_cons, List.length_nil] at hc
        omega
    · intro hlt
      rw [hget]
      simp only
      rw [RouteStabilitySensor.calculate_stability, if_pos hlt]
      exact round2_hundred
    · intro hge
      rw [hget]
      simp only
      rw [RouteStabilitySensor.calculate_stability, if_neg (by omega : ¬ h2.length < 2),
        hlast]
      have htot : h2.dropLast.length = h2.length - 1 := List.length_dropLast h2
      rw [if_neg (by rw [htot]; omega : ¬ h2.dropLast.length = 0), htot]
      congr 1
      ring

/-- Counterexample to C3 as stated: a successful trace that parsed to an
empty hop list is reported as offline with the history left unchanged
(the claim requires an append and a report), and with 4 held snapshots of
which 1 matches, the reported stability is the rounded `33.33`, not the
exact `100·1/3`. -/
theorem route_stability_claim_counterexample :
    (RouteStabilitySensor.get_data [] (some [])).1.status = "offline"
    ∧ (RouteStabilitySensor.get_data [] (some [])).2 = []
    ∧ (RouteStabilitySensor.get_data [["1"], ["2"], ["2"]] (some ["1"])).1.overall_stability
        ≠ 100 * 1 / 3 := by
  refine ⟨by decide, by decide, ?_⟩
  have hstep : RouteStabilitySensor.get_data [["1"], ["2"], ["2"]] (some ["1"])
      = ({ overall_stability := round2 (RouteStabilitySensor.calculate_stability
            [["1"], ["2"], ["2"], ["1"]]),
           route_changes := 3, current_route := .hops ["1"],
           status := "online", error := none }, [["1"], ["2"], ["2"], ["1"]]) := rfl
  have hcalc : RouteStabilitySensor.calculate_stability [["1"], ["2"], ["2"], ["1"]]
      = (1 : ℚ) / 3 * 100 := by
    have hfl : ((([["1"], ["2"], ["2"], ["1"]] : List (List String)).dropLast).filter
        (fun q => q = (([["1"], ["2"], ["2"], ["1"]] : List (List String)).getLastD []))).length
        = 1 := by decide
    simp only [RouteStabilitySensor.calculate_stability]
    rw [if_neg (by decide : ¬ ([["1"], ["2"], ["2"], ["1"]] : List (List String)).length < 2)]
    rw [if_neg (by decide :
      ¬ (([["1"], ["2"], ["2"], ["1"]] : List (List String)).dropLast.length = 0))]
    rw [hfl]
    norm_num
  rw [hstep]
  simp only
  rw [hcalc]
  norm_num [round2, roundHalfEven]

/-- Witness for C3 at history `[[a],[b],[a]]` and trace `[a]`: the
snapshot is appended (history length 4 ≤ 10), status online, and the
reported stability is `round2(100·2/3) = 66.67`. -/
theorem route_stability_spec_witness :
    (RouteStabilitySensor.get_data [["a"], ["b"], ["a"]] (some ["a"])).2
        = [["a"], ["b"], ["a"], ["a"]]
    ∧ (RouteStabilitySensor.get_data [["a"], ["b"], ["a"]] (some ["a"])).1.status
        = "online"
    ∧ (RouteStabilitySensor.get_data [["a"], ["b"], ["a"]]
        (some ["a"])).1.route_changes = 3
    ∧ (RouteStabilitySensor.get_data [["a"], ["b"], ["a"]]
        (some ["a"])).1.overall_stability = 6667 / 100 := by
  have h := (route_stability_spec [["a"], ["b"], ["a"]] (some ["a"])).2
    ["a"] rfl (by decide) [["a"], ["b"], ["a"], ["a"]] (by decide)
  refine ⟨h.1, h.2.2.1, ?_, ?_⟩
  · rw [h.2.2.2.2.2.1]
    rfl
  · have hfilter : ((([["a"], ["b"], ["a"], ["a"]] : List (List String)).dropLast).filter
        (fun q => q = ["a"])).length = 2 := by decide
    rw [h.2.2.2.2.2.2.2 (by decide), hfilter]
    norm_num [round2, roundHalfEven]

/-! ### Orchestrator failure containment (claim C4) -/

lemma get_all_sensor_data_keys (ip_info : ReportEntry)
    (sensors : List (String × Except String ReportEntry)) :
    (ISPHealthMonitor.get_all_sensor_data ip_info sensors).map Prod.fst
        = "ip_info" :: sensors.map Prod.fst := by
  simp only [ISPHealthMonitor.get_all_sensor_data, List.map_cons, List.cons.injEq,
    true_and, List.map_map]
  induction sensors with
  | nil => rfl
  | cons a t ih =>
    obtain ⟨nm, oc⟩ := a
    cases oc <;> simpa using ih

/-- C4: one collection cycle returns a report with exactly one entry per
enabled sensor plus the always-present `ip_info` entry, in order; a sensor
that raises contributes a `status = "error"` entry carrying its message, a
sensor that returns contributes its own data, and neither is ever a
missing key nor disturbs the other entries. -/
theorem orchestrator_report_spec (ip_info : ReportEntry)
    (sensors : List (String × Except String ReportEntry))
    (hnames : "ip_info" ∉ sensors.map Prod.fst ∧ (sensors.map Prod.fst).Nodup) :
    (ISPHealthMonitor.get_all_sensor_data ip_info sensors).map Prod.fst
        = "ip_info" :: sensors.map Prod.fst
    ∧ ((ISPHealthMonitor.get_all_sensor_data ip_info sensors).map Prod.fst).Nodup
    ∧ (∀ (nm e : String), (nm, Except.error e) ∈ sensors →
        (nm, ({ status := "error", error := some e } : ReportEntry))
          ∈ ISPHealthMonitor.get_all_sensor_data ip_info sensors)
    ∧ (∀ (nm : String) (d : ReportEntry), (nm, Except.ok d) ∈ sensors →
        (nm, d) ∈ ISPHealthMonitor.get_all_sensor_data ip_info sensors) := by
  have hkeys := get_all_sensor_data_keys ip_info sensors
  refine ⟨hkeys, ?_, ?_, ?_⟩
  · rw [hkeys]
    exact List.nodup_cons.mpr ⟨hnames.1, hnames.2⟩
  · intro nm e hmem
    exact List.mem_cons_of_mem _ (List.mem_map.mpr ⟨(nm, Except.error e), hmem, rfl⟩)
  · intro nm d hmem
    exact List.mem_cons_of_mem _ (List.mem_map.mpr ⟨(nm, Except.ok d), hmem, rfl⟩)

/-- Witness for C4: of two enabled sensors, `jitter` raises `"boom"` and
becomes an error entry while `latency` and `ip_info` keep their data. -/
theorem orchestrator_report_spec_witness :
    ("ip_info" ∉ ([("latency", Except.ok ({ status := "online", error := none } : ReportEntry)),
        ("jitter", Except.error "boom")].map Prod.fst))
    ∧ (ISPHealthMonitor.get_all_sensor_data { status := "online", error := none }
        [("latency", Except.ok { status := "online", error := none }),
         ("jitter", Except.error "boom")]).map Prod.fst
        = ["ip_info", "latency", "jitter"]
    ∧ ("jitter", ({ status := "error", error := some "boom" } : ReportEntry))
        ∈ ISPHealthMonitor.get_all_sensor_data { status := "online", error := none }
            [("latency", Except.ok { status := "online", error := none }),
             ("jitter", Except.error "boom")]
    ∧ ("latency", ({ status := "online", error := none } : ReportEntry))
        ∈ ISPHealthMonitor.get_all_sensor_data { status := "online", error := none }
            [("latency", Except.ok { status := "online", error := none }),
             ("jitter", Except.error "boom")] := by
  have h := orchestrator_report_spec { status := "online", error := none }
    [("latency", Except.ok { status := "online", error := none }),
     ("jitter", Except.error "boom")] ⟨by decide, by decide⟩
  exact ⟨by decide, h.1, h.2.2.1 "jitter" "boom" (by simp),
    h.2.2.2 "latency" { status := "online", error := none } (by simp)⟩

/-! ### Address-provider chain exhaustion (claim C6) -/

lemma trySources_all_error {α : Type} (outcome : String → Except String α)
    (init : List String) (slast : String)
    (h : ∀ s ∈ init ++ [slast], ∃ e, outcome s = Except.error e) :
    ∀ last : Option String, ∃ lastE : String,
      outcome slast = Except.error lastE
      ∧ trySources outcome (init ++ [slast]) last
          = Except.error ("All IP info sources failed. Last error: " ++ lastE) := by
  induction init with
  | nil =>
    intro last
    obtain ⟨e, he⟩ := h slast (by simp)
    refine ⟨e, he, ?_⟩
    simp only [List.nil_append, trySources, he, pyStr]
  | cons s t ih =>
    intro last
    obtain ⟨e, he⟩ := h s (by simp)
    obtain ⟨lastE, h1, h2⟩ := ih (fun x hx => h x (by
      simp only [List.cons_append, List.mem_cons]
      exact Or.inr hx)) (some e)
    refine ⟨lastE, h1, ?_⟩
    simp only [List.cons_append, trySources, he]
    exact h2

/-- C6: when every tried address provider raises, the chain raises an
aggregate error quoting the last provider's error (no default candidate
is substituted), and the caller surfaces exactly that message as the
probe's own error-status result. -/
theorem address_chain_aggregate_error {α : Type} (names : List String)
    (outcome : String → Except String α) (preferred : Option String)
    (h1 : sourcesToTry preferred names ≠ [])
    (h2 : ∀ s ∈ sourcesToTry preferred names, ∃ e, outcome s = Except.error e) :
    ∃ slast lastE, (sourcesToTry preferred names).getLast? = some slast
      ∧ outcome slast = Except.error lastE
      ∧ IPInfoManager.get_ip_info names outcome preferred
          = Except.error ("All IP info sources failed. Last error: " ++ lastE)
      ∧ ISPHealthMonitor.get_ip_information names outcome preferred
          = IPLookup.errorResult ("All IP info sources failed. Last error: " ++ lastE) := by
  obtain hnil | ⟨L, b, hLb⟩ := List.eq_nil_or_concat (sourcesToTry preferred names)
  · exact absurd hnil h1
  · rw [List.concat_eq_append] at hLb
    obtain ⟨lastE, hE, hT⟩ := trySources_all_error outcome L b
      (by rw [← hLb]; exact h2) none
    refine ⟨b, lastE, ?_, hE, ?_, ?_⟩
    · rw [hLb, List.getLast?_concat]
    · rw [IPInfoManager.get_ip_info, hLb]
      exact hT
    · rw [ISPHealthMonitor.get_ip_information, IPInfoManager.get_ip_info, hLb, hT]

/-- Witness for C6: both available providers raise; the preferred
`"ipinfo"` is tried first, the fallback `"ipapi"` last, and the aggregate
error quotes the latter's message. -/
theorem address_chain_aggregate_error_witness :
    sourcesToTry (some "ipinfo") ["ipapi", "ipinfo"] ≠ []
    ∧ (sourcesToTry (some "ipinfo") ["ipapi", "ipinfo"]).getLast? = some "ipapi"
    ∧ ISPHealthMonitor.get_ip_information ["ipapi", "ipinfo"]
        (fun s => (Except.error ("down:" ++ s) : Except String ℕ)) (some "ipinfo")
        = IPLookup.errorResult "All IP info sources failed. Last error: down:ipapi" := by
  have h := address_chain_aggregate_error ["ipapi", "ipinfo"]
    (fun s => (Except.error ("down:" ++ s) : Except String ℕ)) (some "ipinfo")
    (by decide) (fun s _ => ⟨"down:" ++ s, rfl⟩)
  obtain ⟨slast, lastE, hlast, hout, _hchain, hcaller⟩ := h
  have hs : slast = "ipapi" := by
    have : (sourcesToTry (some "ipinfo") ["ipapi", "ipinfo"]).getLast?
        = some "ipapi" := by decide
    rw [this] at hlast
    exact (Option.some.injEq _ _ ▸ hlast).symm
  subst hs
  have he : lastE = "down:ipapi" := by
    simpa using hout.symm
  subst he
  exact ⟨by decide, by decide, hcaller⟩

/-! ### Coordinator mock-data fallback (claim C8) -/

/-- C8: any orchestration-level exception makes the coordinator return
the fabricated mock report: every metric (including `ip_info`) is present
with status `"online"`, and no entry carries an error status. -/
theorem coordinator_mock_fallback :
    (∀ e : String, ISPHealthDataUpdateCoordinator.async_update_data (Except.error e)
        = ISPHealthDataUpdateCoordinator.get_mock_data)
    ∧ ISPHealthDataUpdateCoordinator.get_mock_data.sensors.map Prod.fst
        = ["ip_info", "dns_config", "latency", "packet_loss", "jitter",
           "throughput", "dns_reliability", "route_stability"]
    ∧ (∀ p ∈ ISPHealthDataUpdateCoordinator.get_mock_data.sensors, p.2 = "online")
    ∧ (∀ (e : String) (p : String × String),
        p ∈ (ISPHealthDataUpdateCoordinator.async_update_data (Except.error e)).sensors →
        p.2 ≠ "error") := by
  refine ⟨fun e => rfl, rfl, by decide, ?_⟩
  intro e p hp
  have honline : p.2 = "online" := by
    simp only [ISPHealthDataUpdateCoordinator.async_update_data,
      ISPHealthDataUpdateCoordinator.get_mock_data, List.mem_cons,
      List.not_mem_nil, or_false] at hp
    rcases hp with rfl | rfl | rfl | rfl | rfl | rfl | rfl | rfl <;> rfl
  rw [honline]
  decide

/-- Witness for C8: the exception message `"boom"` yields the mock
report; its `ip_info` entry is present with status `"online"`, not an
error. -/
theorem coordinator_mock_fallback_witness :
    ISPHealthDataUpdateCoordinator.async_update_data (Except.error "boom")
        = ISPHealthDataUpdateCoordinator.get_mock_data
    ∧ ("ip_info", "online") ∈ ISPHealthDataUpdateCoordinator.get_mock_data.sensors
    ∧ (("ip_info", "online") : String × String).2 ≠ "error" := by
  refine ⟨coordinator_mock_fallback.1 "boom", by decide, ?_⟩
  exact coordinator_mock_fallback.2.2.2 "boom" ("ip_info", "online") (by decide)

/-- Witness for C10: the public address `"172.217.0.1"` is excluded, it
starts with the listed prefix `"172."`, and the chain-step equation holds
at a concrete method. -/
theorem dns_exclusion_prefix_test_witness :
    DNSConfigSensor.is_container_dns "172.217.0.1" = true
    ∧ (∃ p ∈ containerNetworks, p.data.isPrefixOf ("172.217.0.1" : String).data = true)
    ∧ DNSConfigSensor.chainLoop [("m", some ["172.217.0.1"])]
        = (if filteredOf ("m", some ["172.217.0.1"]) = []
           then DNSConfigSensor.chainLoop [] else (filteredOf ("m", some ["172.217.0.1"]), "m")) := by
  refine ⟨dns_exclusion_prefix_test.2.2.1, ?_, ?_⟩
  · exact (dns_exclusion_prefix_test.2.1 "172.217.0.1").mp dns_exclusion_prefix_test.2.2.1
  · exact dns_exclusion_prefix_test.2.2.2 "m" (some ["172.217.0.1"]) []

/-! ### Address normalizers are not idempotent (claim C9) -/

lemma denull_ne_some_null (v : Option JVal) : denull v ≠ some JVal.null := by
  cases v with
  | none => simp [denull]
  | some w => cases w <;> simp [denull]

lemma jget_ne_some_null (raw : Raw) (k : RawKey) : jget raw k ≠ some JVal.null :=
  denull_ne_some_null (raw k)

lemma denull_some_getD (f : Option JVal) (hf : f ≠ some JVal.null) :
    denull (some (f.getD JVal.null)) = f := by
  cases f with
  | none => rfl
  | some w =>
    cases w with
    | null => exact absurd rfl hf
    | str s => rfl
    | num q => rfl

/-- Re-normalizing a record through `toRaw` with the ipinfo.io mapping:
the canonical keys whose raw spelling coincides survive, the others are
dropped. -/
lemma normalize_ipinfo_toRaw (t2 : String) (a : AddressInfo)
    (hip : a.ip ≠ some JVal.null) (hhost : a.hostname ≠ some JVal.null)
    (hcity : a.city ≠ some JVal.null) (hregion : a.region ≠ some JVal.null)
    (hcountry : a.country ≠ some JVal.null) (htz : a.timezone ≠ some JVal.null) :
    IPInfoIOProvider.normalize_data t2 a.toRaw
      = Except.ok
          { ip := a.ip, hostname := a.hostname, city := a.city,
            region := a.region, country := a.country, latitude := none,
            longitude := none, organization := none, postal_code := none,
            timezone := a.timezone, source := "ipinfo.io", timestamp := t2 } := by
  show Except.ok _ = _
  rw [Except.ok.injEq]
  refine AddressInfo.mk.injEq _ _ _ _ _ _ _ _ _ _ _ _ _ _ _ _ _ _ _ _ _ _ _ _ |>.mpr ?_
  refine ⟨?_, ?_, ?_, ?_, ?_, rfl, rfl, rfl, rfl, ?_, rfl, rfl⟩
  · exact denull_some_getD a.ip hip
  · exact denull_some_getD a.hostname hhost
  · exact denull_some_getD a.city hcity
  · exact denull_some_getD a.region hregion
  · exact denull_some_getD a.country hcountry
  · exact denull_some_getD a.timezone htz

/-- C9 (corrected/amended): re-running a provider's `normalize_data` on an
already-normalized record is not the identity.  For ip-api.com, whose raw
keys (`query`, `reverse`, `regionName`, `lat`, `lon`, `isp`, `zip`) all
differ from the canonical keys, re-normalization clears ip, hostname,
region, latitude, longitude, organization and postal_code, preserving only
city, country, timezone and source.  For ipinfo.io, whose `org`, `postal`
and `loc` raw keys differ, re-normalization clears latitude, longitude,
organization and postal_code and preserves the rest. -/
theorem normalize_not_idempotent_spec (t t2 : String) (raw : Raw) :
    IPAPIProvider.normalize_data t2 (IPAPIProvider.normalize_data t raw).toRaw
      = { IPAPIProvider.normalize_data t raw with
          ip := none, hostname := none, region := none, latitude := none,
          longitude := none, organization := none, postal_code := none,
          timestamp := t2 }
    ∧ (∀ r : AddressInfo, IPInfoIOProvider.normalize_data t raw = Except.ok r →
        IPInfoIOProvider.normalize_data t2 r.toRaw
          = Except.ok
              { r with
                latitude := none, longitude := none,
                organization := none, postal_code := none, timestamp := t2 }) := by
  constructor
  · refine AddressInfo.mk.injEq _ _ _ _ _ _ _ _ _ _ _ _ _ _ _ _ _ _ _ _ _ _ _ _ |>.mpr ?_
    refine ⟨rfl, rfl, ?_, rfl, ?_, rfl, rfl, rfl, rfl, ?_, rfl, rfl⟩
    · exact denull_some_getD _ (jget_ne_some_null raw .city)
    · exact denull_some_getD _ (jget_ne_some_null raw .country)
    · exact denull_some_getD _ (jget_ne_some_null raw .timezone)
  · intro r hok
    unfold IPInfoIOProvider.normalize_data at hok
    cases hpl : IPInfoIOProvider.parse_loc raw with
    | error e =>
      rw [hpl] at hok
      exact absurd hok (by simp)
    | ok latlon =>
      rw [hpl, Except.ok.injEq] at hok
      subst hok
      exact normalize_ipinfo_toRaw t2 _ (jget_ne_some_null raw .ip)
        (jget_ne_some_null raw .hostname) (jget_ne_some_null raw .city)
        (jget_ne_some_null raw .region) (jget_ne_some_null raw .country)
        (jget_ne_some_null raw .timezone)

/-- Counterexample to C9 as stated: normalizing an ip-api.com payload with
`query = "1.2.3.4"` and `isp = "ExampleNet"` and re-normalizing the result
(same timestamp) does not give the record back — `ip` and `organization`
are lost, because `normalize_data` reads the raw keys `query`/`isp`, which
the canonical record does not carry. -/
theorem normalize_claim_counterexample :
    IPAPIProvider.normalize_data "t0"
        (IPAPIProvider.normalize_data "t0" (fun k =>
          match k with
          | .query => some (JVal.str "1.2.3.4")
          | .isp => some (JVal.str "ExampleNet")
          | _ => none)).toRaw
      ≠ IPAPIProvider.normalize_data "t0" (fun k =>
          match k with
          | .query => some (JVal.str "1.2.3.4")
          | .isp => some (JVal.str "ExampleNet")
          | _ => none) := by
  decide

/-- Witness for C9: a concrete ipinfo.io payload whose normalization
succeeds; re-normalizing its canonical record keeps `ip` and drops
`organization`. -/
theorem normalize_not_idempotent_spec_witness :
    IPInfoIOProvider.normalize_data "t" (fun k =>
        match k with
        | .ip => some (JVal.str "9.9.9.9")
        | .org => some (JVal.str "ExampleOrg")
        | _ => none)
      = Except.ok
          { ip := some (JVal.str "9.9.9.9"), hostname := none, city := none,
            region := none, country := none, latitude := none, longitude := none,
            organization := some (JVal.str "ExampleOrg"), postal_code := none,
            timezone := none, source := "ipinfo.io", timestamp := "t" }
    ∧ IPInfoIOProvider.normalize_data "t2"
        (AddressInfo.toRaw
          { ip := some (JVal.str "9.9.9.9"), hostname := none,
            city := none, region := none, country := none, latitude := none,
            longitude := none, organization := some (JVal.str "ExampleOrg"),
            postal_code := none, timezone := none, source := "ipinfo.io",
            timestamp := "t" })
      = Except.ok
          { ip := some (JVal.str "9.9.9.9"), hostname := none, city := none,
            region := none, country := none, latitude := none, longitude := none,
            organization := none, postal_code := none, timezone := none,
            source := "ipinfo.io", timestamp := "t2" } := by
  have h := (normalize_not_idempotent_spec "t" "t2" (fun k =>
      match k with
      | .ip => some (JVal.str "9.9.9.9")
      | .org => some (JVal.str "ExampleOrg")
      | _ => none)).2
    { ip := some (JVal.str "9.9.9.9"), hostname := none, city := none,
      region := none, country := none, latitude := none, longitude := none,
      organization := some (JVal.str "ExampleOrg"), postal_code := none,
      timezone := none, source := "ipinfo.io", timestamp := "t" } rfl
  exact ⟨rfl, h⟩

end ISPHealth
